import Mathlib

/-!
Shallow embedding of the M5Stack button handling module
(`src/m5stack/src/buttons.cpp`, `src/m5stack/src/buttons.h`).

Each C++ function taking a `ButtonState*` is modelled as a pure function
from `ButtonState` (and, where the C++ reads `millis()`, an explicit
`currentTime : Nat`) to a new `ButtonState`, paired with the returned
value where the C++ returns one.  `unsigned long` arithmetic is modelled
on `Nat` with explicit wraparound modulo `2^32`.
-/

namespace Buttons

/-- Width of `unsigned long` on the target (ESP32/Arduino): 32 bits. -/
def ULMOD : Nat := 2 ^ 32

/-- C++ unsigned subtraction `a - b` on `unsigned long`: wraps modulo `2^32`. -/
def usub (a b : Nat) : Nat := (a % ULMOD + (ULMOD - b % ULMOD)) % ULMOD

/-- The constant `const unsigned long DEBOUNCE_DELAY = 50;`. -/
def DEBOUNCE_DELAY : Nat := 50

/-- The constant `const unsigned long LONG_PRESS_TIME = 1000;`. -/
def LONG_PRESS_TIME : Nat := 1000

/-- The constant `const unsigned long DOUBLE_CLICK_TIME = 400;`. -/
def DOUBLE_CLICK_TIME : Nat := 400

/-- The record `struct ButtonState` from `buttons.h`, field for field. -/
structure ButtonState where
  isPressed : Bool
  wasLongPressed : Bool
  wasDoubleClicked : Bool
  pressedTime : Nat
  lastPressTime : Nat
  lastState : Bool
  lastDebounceTime : Nat
  deriving Repr, DecidableEq

/-- The initializer `{false, false, false, 0, 0}` used by `initButtons`
(the remaining aggregate members `lastState` and `lastDebounceTime` are
value-initialized to `false` / `0`). -/
def initButton : ButtonState :=
  { isPressed := false
    wasLongPressed := false
    wasDoubleClicked := false
    pressedTime := 0
    lastPressTime := 0
    lastState := false
    lastDebounceTime := 0 }

/-- The function `void processButton(ButtonState* button, bool currentState)`,
with the `millis()` read made explicit as `currentTime`.  Mirrors the C++
body: debounce-timer reset on an observed raw edge, the strict
`(currentTime - lastDebounceTime) > DEBOUNCE_DELAY` gate, press / release
transition detection, and the final `lastState = currentState`. -/
def processButton (button : ButtonState) (currentState : Bool) (currentTime : Nat) :
    ButtonState :=
  let button :=
    if currentState != button.lastState then
      { button with lastDebounceTime := currentTime }
    else button
  let button :=
    if usub currentTime button.lastDebounceTime > DEBOUNCE_DELAY then
      let previousPressed := button.isPressed
      let button := { button with isPressed := currentState }
      let button :=
        if button.isPressed && !previousPressed then
          { button with
            pressedTime := currentTime
            wasDoubleClicked :=
              decide (usub currentTime button.lastPressTime < DOUBLE_CLICK_TIME)
            lastPressTime := currentTime }
        else button
      let button :=
        if !button.isPressed && previousPressed then
          { button with
            wasLongPressed :=
              decide (usub currentTime button.pressedTime ≥ LONG_PRESS_TIME) }
        else button
      button
    else button
  { button with lastState := currentState }

/-- The query `bool isButtonPressed(ButtonState* button)`: pure read. -/
def isButtonPressed (button : ButtonState) : Bool × ButtonState :=
  (button.isPressed, button)

/-- The query `bool wasButtonClicked(ButtonState* button)`: fires when the
button is not (stably) pressed, the last raw sample was pressed, and no long
press is latched; clears `lastState` on a positive read. -/
def wasButtonClicked (button : ButtonState) : Bool × ButtonState :=
  if !button.isPressed && button.lastState && !button.wasLongPressed then
    (true, { button with lastState := false })
  else
    (false, button)

/-- The query `bool wasButtonLongPressed(ButtonState* button)`: read-and-clear
of `wasLongPressed`. -/
def wasButtonLongPressed (button : ButtonState) : Bool × ButtonState :=
  if button.wasLongPressed then
    (true, { button with wasLongPressed := false })
  else
    (false, button)

/-- The query `bool wasButtonDoubleClicked(ButtonState* button)`:
read-and-clear of `wasDoubleClicked`. -/
def wasButtonDoubleClicked (button : ButtonState) : Bool × ButtonState :=
  if button.wasDoubleClicked then
    (true, { button with wasDoubleClicked := false })
  else
    (false, button)

/-- The query `unsigned long getButtonPressDuration(ButtonState* button)`,
with the `millis()` read made explicit as `now`. -/
def getButtonPressDuration (button : ButtonState) (now : Nat) : Nat × ButtonState :=
  if button.isPressed then
    (usub now button.pressedTime, button)
  else
    (0, button)

/-- Fold a list of `(time, raw)` samples through `processButton`. -/
def runSamples (s : ButtonState) (samples : List (Nat × Bool)) : ButtonState :=
  samples.foldl (fun s p => processButton s p.2 p.1) s

/-- Trace-level predicate: every sample observing the raw signal high occurs
at most `DEBOUNCE_DELAY` after the observed toggle that began the current
high stretch.  `lvl` is the last observed raw level and `tgl` the time of the
last observed toggle (initially `false` / `0`). -/
def burstWithin : Bool → Nat → List (Nat × Bool) → Bool
  | _, _, [] => true
  | lvl, tgl, (t, r) :: rest =>
    if r = lvl then
      (!lvl || decide (t ≤ tgl + DEBOUNCE_DELAY)) && burstWithin lvl tgl rest
    else
      burstWithin r t rest

/-- The raw level observed by the final sample of a trace (`lvl` if the trace
is empty). -/
def lastLevel : Bool → List (Nat × Bool) → Bool
  | lvl, [] => lvl
  | _, (_, r) :: rest => lastLevel r rest

/-- The toggle-gap condition of the debounce-suppression claim: each observed
raw-signal toggle occurs less than `DEBOUNCE_DELAY` after the previous
observed toggle (`prev`, `none` when no toggle has been observed yet). -/
def gapsOK : Bool → Option Nat → List (Nat × Bool) → Bool
  | _, _, [] => true
  | lvl, prev, (t, r) :: rest =>
    if r = lvl then gapsOK lvl prev rest
    else
      (match prev with
        | none => true
        | some tp => decide (t < tp + DEBOUNCE_DELAY)) && gapsOK r (some t) rest

/-- Time of the first observed toggle of a trace, if any. -/
def firstToggleTime : Bool → List (Nat × Bool) → Option Nat
  | _, [] => none
  | lvl, (t, r) :: rest => if r = lvl then firstToggleTime lvl rest else some t

/-! ### Arithmetic helper lemmas about `usub` -/

/-- Wraparound subtraction agrees with truncated subtraction below `2^32`. -/
theorem usub_of_le (a b : Nat) (hba : b ≤ a) (ha : a < ULMOD) : usub a b = a - b := by
  have hb : b < ULMOD := lt_of_le_of_lt hba ha
  unfold usub
  rw [Nat.mod_eq_of_lt ha, Nat.mod_eq_of_lt hb]
  have h1 : a + (ULMOD - b) = (a - b) + ULMOD := by omega
  rw [h1, Nat.add_mod_right, Nat.mod_eq_of_lt (by omega)]

/-- Wraparound subtraction of a value from itself is zero. -/
theorem usub_self (a : Nat) : usub a a = 0 := by
  unfold usub
  have h : a % ULMOD < ULMOD := Nat.mod_lt a (by decide)
  have h2 : a % ULMOD + (ULMOD - a % ULMOD) = ULMOD := by omega
  rw [h2, Nat.mod_self]

/-- Wraparound subtraction of zero reduces to the modulus. -/
theorem usub_zero (a : Nat) : usub a 0 = a % ULMOD := by
  unfold usub
  simp [Nat.add_mod_right]

/-! ### Shared helper lemmas about single `processButton` steps -/

/-- Helper: on an accepted release (stably pressed, raw already observed low,
debounce gate open), the new `wasLongPressed` is exactly the hold-duration
predicate — the previous flag value is overwritten. -/
theorem processButton_release_long_flag (s : ButtonState) (now : Nat)
    (hip : s.isPressed = true) (hls : s.lastState = false)
    (hdb : usub now s.lastDebounceTime > DEBOUNCE_DELAY) :
    (processButton s false now).wasLongPressed
      = decide (usub now s.pressedTime ≥ LONG_PRESS_TIME) := by
  simp [processButton, hip, hls, hdb]

/-- Helper: a first-toggle time exists whenever the final observed level
differs from the current one. -/
theorem firstToggleTime_of_lastLevel :
    ∀ (tr : List (Nat × Bool)) (lvl : Bool), lastLevel lvl tr ≠ lvl →
      ∃ u, firstToggleTime lvl tr = some u := by
  intro tr
  induction tr with
  | nil => intro lvl h; exact absurd rfl h
  | cons p rest ih =>
    obtain ⟨t, r⟩ := p
    intro lvl h
    by_cases hr : r = lvl
    · have h' : lastLevel lvl rest ≠ lvl := by simpa [lastLevel, hr] using h
      obtain ⟨u, hu⟩ := ih lvl h'
      exact ⟨u, by simp [firstToggleTime, hr, hu]⟩
    · exact ⟨t, by simp [firstToggleTime, hr]⟩

/-- Helper: under the toggle-gap condition, the first toggle of a trace
occurs less than `DEBOUNCE_DELAY` after the previous toggle. -/
theorem firstToggleTime_gap :
    ∀ (tr : List (Nat × Bool)) (lvl : Bool) (tgl u : Nat),
      gapsOK lvl (some tgl) tr = true → firstToggleTime lvl tr = some u →
      u < tgl + DEBOUNCE_DELAY := by
  intro tr
  induction tr with
  | nil => intro lvl tgl u _ h; simp [firstToggleTime] at h
  | cons p rest ih =>
    obtain ⟨t, r⟩ := p
    intro lvl tgl u hg hf
    by_cases hr : r = lvl
    · have hg' : gapsOK lvl (some tgl) rest = true := by simpa [gapsOK, hr] using hg
      have hf' : firstToggleTime lvl rest = some u := by
        simpa [firstToggleTime, hr] using hf
      exact ih lvl tgl u hg' hf'
    · have ht : t = u := by simpa [firstToggleTime, hr] using hf
      have h2 : t < tgl + DEBOUNCE_DELAY ∧ gapsOK r (some t) rest = true := by
        simpa [gapsOK, hr] using hg
      omega

/-- Helper: the first toggle time of a trace is the time of one of its
samples. -/
theorem firstToggleTime_mem :
    ∀ (tr : List (Nat × Bool)) (lvl : Bool) (u : Nat),
      firstToggleTime lvl tr = some u → ∃ r, (u, r) ∈ tr := by
  intro tr
  induction tr with
  | nil => intro lvl u h; simp [firstToggleTime] at h
  | cons p rest ih =>
    obtain ⟨t, r⟩ := p
    intro lvl u h
    by_cases hr : r = lvl
    · have h' : firstToggleTime lvl rest = some u := by
        simpa [firstToggleTime, hr] using h
      obtain ⟨r', hr'⟩ := ih lvl u h'
      exact ⟨r', by simp [hr']⟩
    · have ht : t = u := by simpa [firstToggleTime, hr] using h
      exact ⟨r, by simp [ht]⟩

/-- Helper: on a monotone trace, the toggle-gap condition together with a
final observed level of low implies that every high sample lies within the
debounce window of the toggle that began its high stretch. -/
theorem gapsOK_burstWithin :
    ∀ (tr : List (Nat × Bool)) (lvl : Bool) (tgl : Nat),
      List.Pairwise (fun p q => p.1 ≤ q.1) tr →
      gapsOK lvl (some tgl) tr = true →
      lastLevel lvl tr = false →
      burstWithin lvl tgl tr = true := by
  intro tr
  induction tr with
  | nil => intro lvl tgl _ _ _; rfl
  | cons p rest ih =>
    obtain ⟨t, r⟩ := p
    intro lvl tgl hpw hg hlast
    have hpw' := (List.pairwise_cons.mp hpw).2
    have hhead := (List.pairwise_cons.mp hpw).1
    by_cases hr : r = lvl
    · have hg' : gapsOK lvl (some tgl) rest = true := by simpa [gapsOK, hr] using hg
      have hlast' : lastLevel lvl rest = false := by simpa [lastLevel, hr] using hlast
      have hrec := ih lvl tgl hpw' hg' hlast'
      cases hlvl : lvl
      · simp only [hlvl] at hrec
        simp [burstWithin, hr, hlvl, hrec]
      · simp only [hlvl] at hrec hlast' hg'
        have hne : lastLevel true rest ≠ true := by rw [hlast']; simp
        obtain ⟨u, hu⟩ := firstToggleTime_of_lastLevel rest true hne
        have hb2 : u < tgl + DEBOUNCE_DELAY := firstToggleTime_gap rest true tgl u hg' hu
        obtain ⟨r', hmem⟩ := firstToggleTime_mem rest true u hu
        have hle : t ≤ u := hhead (u, r') hmem
        have hbound : t ≤ tgl + DEBOUNCE_DELAY := by omega
        simp [burstWithin, hr, hlvl, hbound, hrec]
    · have hg2 : (match (some tgl : Option Nat) with
          | none => true
          | some tp => decide (t < tp + DEBOUNCE_DELAY)) && gapsOK r (some t) rest
            = true := by
        simpa [gapsOK, hr] using hg
      have hg' : gapsOK r (some t) rest = true := by
        have := hg2
        simp at this
        exact this.2
      have hlast' : lastLevel r rest = false := by simpa [lastLevel] using hlast
      have hrec := ih r t hpw' hg' hlast'
      simp [burstWithin, hr, hrec]

/-- Helper: from the initial low level with no toggle observed yet, the
toggle-gap condition with a final low level implies the debounce-window
bound on every high sample — the original claim family, restricted to traces
whose signal settles back low, is contained in the `burstWithin` family. -/
theorem gapsOK_burstWithin_init :
    ∀ (tr : List (Nat × Bool)),
      List.Pairwise (fun p q => p.1 ≤ q.1) tr →
      gapsOK false none tr = true →
      lastLevel false tr = false →
      burstWithin false 0 tr = true := by
  intro tr
  induction tr with
  | nil => intro _ _ _; rfl
  | cons p rest ih =>
    obtain ⟨t, r⟩ := p
    intro hpw hg hlast
    have hpw' := (List.pairwise_cons.mp hpw).2
    by_cases hr : r = false
    · have hg' : gapsOK false none rest = true := by simpa [gapsOK, hr] using hg
      have hlast' : lastLevel false rest = false := by simpa [lastLevel, hr] using hlast
      simp [burstWithin, hr, ih hpw' hg' hlast']
    · have hrt : r = true := by revert hr; cases r <;> simp
      subst hrt
      have hg' : gapsOK true (some t) rest = true := by simpa [gapsOK] using hg
      have hlast' : lastLevel true rest = false := by simpa [lastLevel] using hlast
      have hb := gapsOK_burstWithin rest true t hpw' hg' hlast'
      simp [burstWithin, hb]

/-- Helper: a single sample from an unpressed state whose high observations
respect the debounce-window bound keeps the button unpressed, leaves both
gesture flags unchanged, records the observed level, and keeps or advances
the debounce timestamp. -/
theorem burst_step (s : ButtonState) (t : Nat) (r : Bool)
    (hip : s.isPressed = false)
    (hldt : s.lastDebounceTime ≤ t) (htM : t < ULMOD)
    (hb : r = s.lastState → s.lastState = true → t ≤ s.lastDebounceTime + DEBOUNCE_DELAY) :
    (processButton s r t).isPressed = false ∧
    (processButton s r t).wasLongPressed = s.wasLongPressed ∧
    (processButton s r t).wasDoubleClicked = s.wasDoubleClicked ∧
    (processButton s r t).lastState = r ∧
    (processButton s r t).lastDebounceTime
      = if r = s.lastState then s.lastDebounceTime else t := by
  by_cases hr : r = s.lastState
  · have hbne : (r != s.lastState) = false := by simp [hr]
    cases hls : s.lastState
    · rw [hls] at hr
      subst hr
      by_cases hg : usub t s.lastDebounceTime > DEBOUNCE_DELAY
      · simp [processButton, hbne, hg, hip, hls]
      · simp [processButton, hbne, hg, hip, hls]
    · rw [hls] at hr
      subst hr
      have hbound : t ≤ s.lastDebounceTime + DEBOUNCE_DELAY := hb hls.symm hls
      have hu : usub t s.lastDebounceTime = t - s.lastDebounceTime :=
        usub_of_le _ _ hldt htM
      have hng : ¬ usub t s.lastDebounceTime > DEBOUNCE_DELAY := by
        rw [hu]; omega
      simp [processButton, hbne, hng, hip, hls]
  · have hbne : (r != s.lastState) = true := by simp [hr]
    have hng : ¬ usub t t > DEBOUNCE_DELAY := by rw [usub_self]; decide
    simp [processButton, hbne, hng, hip, hr]

/-- Helper: running any monotone, bounded trace satisfying the
debounce-window bound from an unpressed state keeps the button unpressed and
both gesture flags unchanged. -/
theorem burst_run_inv :
    ∀ (tr : List (Nat × Bool)) (s : ButtonState),
      s.isPressed = false →
      List.Pairwise (fun p q => p.1 ≤ q.1) tr →
      (∀ p ∈ tr, p.1 < ULMOD) →
      (∀ p ∈ tr, s.lastDebounceTime ≤ p.1) →
      burstWithin s.lastState s.lastDebounceTime tr = true →
      (runSamples s tr).isPressed = false ∧
      (runSamples s tr).wasLongPressed = s.wasLongPressed ∧
      (runSamples s tr).wasDoubleClicked = s.wasDoubleClicked := by
  intro tr
  induction tr with
  | nil => intro s hip _ _ _ _; exact ⟨hip, rfl, rfl⟩
  | cons p rest ih =>
    obtain ⟨t, r⟩ := p
    intro s hip hpw hM hldt hw
    have hmem : (t, r) ∈ (t, r) :: rest := by simp
    have hpw' := (List.pairwise_cons.mp hpw).2
    have hhead := (List.pairwise_cons.mp hpw).1
    have hM' : ∀ q ∈ rest, q.1 < ULMOD := fun q hq => hM q (by simp [hq])
    simp only [burstWithin] at hw
    have hrun : runSamples s ((t, r) :: rest) = runSamples (processButton s r t) rest :=
      rfl
    by_cases hr : r = s.lastState
    · rw [if_pos hr] at hw
      have hw1 : (!s.lastState || decide (t ≤ s.lastDebounceTime + DEBOUNCE_DELAY))
          = true := by
        have := hw
        simp at this
        rcases this with ⟨h1, _⟩
        simpa using h1
      have hw2 : burstWithin s.lastState s.lastDebounceTime rest = true := by
        have := hw
        simp at this
        rcases this with ⟨_, h2⟩
        exact h2
      have hb : r = s.lastState → s.lastState = true →
          t ≤ s.lastDebounceTime + DEBOUNCE_DELAY := by
        intro _ hls
        rw [hls] at hw1
        simpa using hw1
      obtain ⟨h1, h2, h3, h4, h5⟩ :=
        burst_step s t r hip (hldt _ hmem) (hM _ hmem) hb
      have hldt' : ∀ q ∈ rest, (processButton s r t).lastDebounceTime ≤ q.1 := by
        intro q hq
        rw [h5, if_pos hr]
        exact hldt q (by simp [hq])
      have hw' : burstWithin (processButton s r t).lastState
          (processButton s r t).lastDebounceTime rest = true := by
        rw [h4, h5, if_pos hr, hr]
        exact hw2
      have hres := ih (processButton s r t) h1 hpw' hM' hldt' hw'
      rw [hrun]
      exact ⟨hres.1, hres.2.1.trans h2, hres.2.2.trans h3⟩
    · rw [if_neg hr] at hw
      have hb : r = s.lastState → s.lastState = true →
          t ≤ s.lastDebounceTime + DEBOUNCE_DELAY := fun hreq _ => absurd hreq hr
      obtain ⟨h1, h2, h3, h4, h5⟩ :=
        burst_step s t r hip (hldt _ hmem) (hM _ hmem) hb
      have hldt' : ∀ q ∈ rest, (processButton s r t).lastDebounceTime ≤ q.1 := by
        intro q hq
        rw [h5, if_neg hr]
        exact hhead q hq
      have hw' : burstWithin (processButton s r t).lastState
          (processButton s r t).lastDebounceTime rest = true := by
        rw [h4, h5, if_neg hr]
        exact hw
      have hres := ih (processButton s r t) h1 hpw' hM' hldt' hw'
      rw [hrun]
      exact ⟨hres.1, hres.2.1.trans h2, hres.2.2.trans h3⟩

/-! ### Claim C1 -/

/-- Claim C1 (code bug): after any `processButton` sample with the raw signal
low — in particular after every accepted release — `lastState` is `false`, so
`wasButtonClicked` returns `false`.  A click is therefore never reported on
the first read after an accepted short release, contradicting the claimed
exactly-once click delivery. -/
theorem click_false_after_release_sample (s : ButtonState) (t : Nat) :
    (wasButtonClicked (processButton s false t)).fst = false := by
  simp [processButton, wasButtonClicked]

/-! ### Claim C2 -/

/-- Claim C2 (counterexample): a press accepted outside the double-click
window clears an already-true `wasDoubleClicked`, so the new flag is not the
OR of its previous value with the window predicate.  The state has the press
pending (`isPressed = false`, `lastState = true`, debounce gate open at
`now = 500`), the press is accepted, and the flag drops from `true` to
`false` although the OR formula predicts `true`. -/
theorem double_click_flag_not_latched :
    (({ initButton with wasDoubleClicked := true, lastState := true } :
        ButtonState).isPressed = false)
  ∧ ((processButton { initButton with wasDoubleClicked := true, lastState := true }
        true 500).isPressed = true)
  ∧ (processButton { initButton with wasDoubleClicked := true, lastState := true }
        true 500).wasDoubleClicked
      ≠ (({ initButton with wasDoubleClicked := true, lastState := true } :
            ButtonState).wasDoubleClicked
          || decide (usub 500
              ({ initButton with wasDoubleClicked := true, lastState := true } :
                ButtonState).lastPressTime < DOUBLE_CLICK_TIME)) := by
  decide

/-- Claim C2 (amended): on every sample that accepts a press transition, the
new `wasDoubleClicked` equals exactly the window predicate
`usub now lastPressTime < DOUBLE_CLICK_TIME`; the previous flag value is
overwritten, so an accepting press outside the window clears a pending
flag. -/
theorem press_accept_double_flag (s : ButtonState) (now : Nat)
    (hip : s.isPressed = false) (hls : s.lastState = true)
    (hdb : usub now s.lastDebounceTime > DEBOUNCE_DELAY) :
    (processButton s true now).wasDoubleClicked
      = decide (usub now s.lastPressTime < DOUBLE_CLICK_TIME) := by
  simp [processButton, hip, hls, hdb]

/-- Claim C2 witness: the amended statement evaluated at a concrete accepted
press (`now = 300` with all timestamps zero). -/
theorem press_accept_double_flag_witness :
    (processButton { initButton with lastState := true } true 300).wasDoubleClicked
      = decide (usub 300 ({ initButton with lastState := true } :
          ButtonState).lastPressTime < DOUBLE_CLICK_TIME) :=
  press_accept_double_flag { initButton with lastState := true } 300 rfl rfl (by decide)

/-! ### Claim C3 -/

/-- Claim C3 (counterexample): a release accepted with a short hold clears an
already-true `wasLongPressed`, so the new flag is not the OR of its previous
value with the threshold predicate.  The state is stably pressed since
`pressedTime = 450` with the flag pending; the release is accepted at
`now = 500` (hold 50 ms), and the flag drops from `true` to `false` although
the OR formula predicts `true`. -/
theorem long_press_flag_not_latched :
    (({ initButton with wasLongPressed := true, isPressed := true, pressedTime := 450 } : ButtonState).isPressed = true)
  ∧ ((processButton { initButton with wasLongPressed := true, isPressed := true, pressedTime := 450 } false 500).isPressed = false)
  ∧ (processButton { initButton with wasLongPressed := true, isPressed := true, pressedTime := 450 } false 500).wasLongPressed
      ≠ (({ initButton with wasLongPressed := true, isPressed := true, pressedTime := 450 } : ButtonState).wasLongPressed
          || decide (usub 500 450 ≥ LONG_PRESS_TIME)) := by
  decide

/-- Claim C3 (amended): on every sample that accepts a release transition, the
new `wasLongPressed` equals exactly the hold-duration predicate
`usub now pressedTime ≥ LONG_PRESS_TIME`; the previous flag value is
overwritten, so an accepting short release clears a pending flag. -/
theorem release_accept_long_flag (s : ButtonState) (now : Nat)
    (hip : s.isPressed = true) (hls : s.lastState = false)
    (hdb : usub now s.lastDebounceTime > DEBOUNCE_DELAY) :
    (processButton s false now).wasLongPressed
      = decide (usub now s.pressedTime ≥ LONG_PRESS_TIME) :=
  processButton_release_long_flag s now hip hls hdb

/-- Claim C3 witness: the amended statement evaluated at a concrete accepted
release (`pressedTime = 60`, `now = 160`, hold 100 ms). -/
theorem release_accept_long_flag_witness :
    (processButton { initButton with isPressed := true, pressedTime := 60, lastDebounceTime := 100 } false 160).wasLongPressed
      = decide (usub 160 60 ≥ LONG_PRESS_TIME) :=
  release_accept_long_flag
    { initButton with isPressed := true, pressedTime := 60, lastDebounceTime := 100 }
    160 rfl rfl (by decide)

/-! ### Claim C4 -/

/-- Claim C4 (code bug): for an accepted release with hold duration below
`LONG_PRESS_TIME`, neither event fires — `wasButtonClicked` returns `false`
(the release sample left `lastState = false`) and `wasButtonLongPressed`
returns `false` (the flag was overwritten with the failed predicate) —
contradicting the claimed exactly-one split at 1000 ms. -/
theorem short_release_fires_neither (s : ButtonState) (t : Nat)
    (hip : s.isPressed = true) (hls : s.lastState = false)
    (hdb : usub t s.lastDebounceTime > DEBOUNCE_DELAY)
    (hd : usub t s.pressedTime < LONG_PRESS_TIME) :
    (wasButtonClicked (processButton s false t)).fst = false ∧
    (wasButtonLongPressed (processButton s false t)).fst = false := by
  constructor
  · simp [processButton, wasButtonClicked]
  · have hflag := processButton_release_long_flag s t hip hls hdb
    simp [wasButtonLongPressed, hflag, Nat.not_le.mpr hd]

/-- Claim C4 witness: the short-release theorem evaluated on the concrete
accepted release with hold 100 ms (state reached by a press accepted at
`t = 60` and a release edge at `t = 100`, release accepted at `t = 160`). -/
theorem short_release_fires_neither_witness :
    (wasButtonClicked (processButton
        { initButton with isPressed := true, pressedTime := 60, lastDebounceTime := 100 } false 160)).fst = false ∧
    (wasButtonLongPressed (processButton
        { initButton with isPressed := true, pressedTime := 60, lastDebounceTime := 100 } false 160)).fst = false :=
  short_release_fires_neither
    { initButton with isPressed := true, pressedTime := 60, lastDebounceTime := 100 }
    160 rfl rfl (by decide) (by decide)

/-! ### Claim C5 -/

/-- Claim C5: `isPressed` is updated from the raw signal exactly when the
time since the last observed raw change (post edge-reset) is strictly greater
than `DEBOUNCE_DELAY`; at or below the threshold the sample leaves
`isPressed` unchanged. -/
theorem debounce_strict_gate (s : ButtonState) (raw : Bool) (now : Nat) :
    (usub now (if raw != s.lastState then now else s.lastDebounceTime) > DEBOUNCE_DELAY →
      (processButton s raw now).isPressed = raw) ∧
    (usub now (if raw != s.lastState then now else s.lastDebounceTime) ≤ DEBOUNCE_DELAY →
      (processButton s raw now).isPressed = s.isPressed) := by
  cases hb : raw != s.lastState
  · simp only [hb, Bool.false_eq_true, if_false]
    constructor
    · intro h
      simp [processButton, hb, h, apply_ite ButtonState.isPressed]
    · intro h
      have hng : ¬ usub now s.lastDebounceTime > DEBOUNCE_DELAY := by omega
      simp [processButton, hb, hng]
  · simp only [hb, if_true, usub_self]
    constructor
    · intro h
      exact absurd h (by decide)
    · intro h
      have hng : ¬ usub now now > DEBOUNCE_DELAY := by rw [usub_self]; decide
      simp [processButton, hb, hng]

/-- Claim C5 witness: both directions of the strict debounce gate at concrete
inputs — a raw level stable for 100 ms is accepted, and a sample on a fresh
edge (elapsed 0 ms) leaves `isPressed` unchanged. -/
theorem debounce_strict_gate_witness :
    (processButton { initButton with lastState := true } true 100).isPressed = true ∧
    (processButton initButton true 100).isPressed = initButton.isPressed :=
  ⟨(debounce_strict_gate { initButton with lastState := true } true 100).1 (by decide),
   (debounce_strict_gate initButton true 100).2 (by decide)⟩

/-! ### Claim C6 -/

/-- Claim C6 (counterexample): two concrete falsifications of the claim as
stated.  First, within the spec scenario (raw high on `[0, 30)`), a
`wasButtonClicked` read after the sample at `t = 0` returns `true` — a click
is registered during the bounce.  Second, the suppression core itself fails
for a trailing high stretch: the trace with toggles observed at `t = 0`
(low to high), `t = 30` (high to low) and `t = 40` (low to high) — every
observed toggle less than 50 ms after the previous one — followed by a
raw-high sample at `t = 140` sets `isPressed` and `wasDoubleClicked`,
because the claim's family does not constrain samples after the final
toggle. -/
theorem bounce_suppression_counterexample :
    (wasButtonClicked (runSamples initButton [(0, true)])).fst = true ∧
    (runSamples initButton
      [(0, true), (30, false), (40, true), (140, true)]).isPressed = true ∧
    (runSamples initButton
      [(0, true), (30, false), (40, true), (140, true)]).wasDoubleClicked = true := by
  decide

/-- Claim C6 (amended): for every monotone, bounded sample trace in which
every sample observing the raw-high level occurs at most `DEBOUNCE_DELAY`
(50 ms) after the observed toggle that began its high stretch (`burstWithin`
— by `gapsOK_burstWithin_init` this family contains every trace of the
claim's original toggle-gap family whose signal settles back low, covering
arbitrary multi-toggle bounce bursts), `isPressed` stays false and neither
`wasLongPressed` nor `wasDoubleClicked` is ever set; a `wasButtonClicked`
read returns exactly the last observed raw sample, hence false once the
signal has been observed low again but spuriously true while the last
observed sample was high. -/
theorem bounce_burst_no_gesture (tr : List (Nat × Bool))
    (hpw : List.Pairwise (fun p q => p.1 ≤ q.1) tr)
    (hM : ∀ p ∈ tr, p.1 < ULMOD)
    (hw : burstWithin false 0 tr = true) :
    (runSamples initButton tr).isPressed = false ∧
    (runSamples initButton tr).wasLongPressed = false ∧
    (runSamples initButton tr).wasDoubleClicked = false ∧
    (wasButtonClicked (runSamples initButton tr)).fst
      = (runSamples initButton tr).lastState := by
  have h := burst_run_inv tr initButton rfl hpw hM (fun p _ => Nat.zero_le p.1) hw
  obtain ⟨h1, h2, h3⟩ := h
  have h2' : (runSamples initButton tr).wasLongPressed = false := h2
  have h3' : (runSamples initButton tr).wasDoubleClicked = false := h3
  refine ⟨h1, h2', h3', ?_⟩
  cases hls : (runSamples initButton tr).lastState <;>
    simp [wasButtonClicked, h1, h2', hls]

/-- Claim C6 witness: the amended statement evaluated on the spec scenario
(press edge at 0, release edge at 30 ms, late quiet sample at 81 ms) and on
a multi-toggle bounce burst (raw high on `[0, 30)` and `[55, 80)`, all
observed toggle gaps under 50 ms). -/
theorem bounce_burst_no_gesture_witness :
    ((runSamples initButton [(0, true), (30, false), (81, false)]).isPressed = false ∧
      (runSamples initButton [(0, true), (30, false), (81, false)]).wasLongPressed
        = false ∧
      (runSamples initButton [(0, true), (30, false), (81, false)]).wasDoubleClicked
        = false ∧
      (wasButtonClicked (runSamples initButton [(0, true), (30, false), (81, false)])).fst
        = (runSamples initButton [(0, true), (30, false), (81, false)]).lastState) ∧
    ((runSamples initButton
        [(0, true), (29, true), (30, false), (55, true), (79, true), (80, false),
          (131, false)]).isPressed = false ∧
      (runSamples initButton
        [(0, true), (29, true), (30, false), (55, true), (79, true), (80, false),
          (131, false)]).wasLongPressed = false ∧
      (runSamples initButton
        [(0, true), (29, true), (30, false), (55, true), (79, true), (80, false),
          (131, false)]).wasDoubleClicked = false ∧
      (wasButtonClicked (runSamples initButton
        [(0, true), (29, true), (30, false), (55, true), (79, true), (80, false),
          (131, false)])).fst
        = (runSamples initButton
            [(0, true), (29, true), (30, false), (55, true), (79, true), (80, false),
              (131, false)]).lastState) :=
  ⟨bounce_burst_no_gesture [(0, true), (30, false), (81, false)]
      (by decide) (by decide) (by decide),
   bounce_burst_no_gesture
      [(0, true), (29, true), (30, false), (55, true), (79, true), (80, false),
        (131, false)]
      (by decide) (by decide) (by decide)⟩

/-! ### Claim C7 -/

/-- Claim C7: when a gesture flag is set, the consuming read returns `true`
and clears it, so an immediately repeated read returns `false` — for both
`wasButtonLongPressed` and `wasButtonDoubleClicked`. -/
theorem read_clear_once (s : ButtonState) :
    (s.wasLongPressed = true →
      (wasButtonLongPressed s).fst = true ∧
      (wasButtonLongPressed (wasButtonLongPressed s).snd).fst = false) ∧
    (s.wasDoubleClicked = true →
      (wasButtonDoubleClicked s).fst = true ∧
      (wasButtonDoubleClicked (wasButtonDoubleClicked s).snd).fst = false) := by
  constructor
  · intro h
    simp [wasButtonLongPressed, h]
  · intro h
    simp [wasButtonDoubleClicked, h]

/-- Claim C7 witness: the read-clear behaviour evaluated at a concrete state
with both flags set. -/
theorem read_clear_once_witness :
    ((wasButtonLongPressed { initButton with wasLongPressed := true, wasDoubleClicked := true }).fst = true ∧
      (wasButtonLongPressed (wasButtonLongPressed { initButton with wasLongPressed := true, wasDoubleClicked := true }).snd).fst = false) ∧
    ((wasButtonDoubleClicked { initButton with wasLongPressed := true, wasDoubleClicked := true }).fst = true ∧
      (wasButtonDoubleClicked (wasButtonDoubleClicked { initButton with wasLongPressed := true, wasDoubleClicked := true }).snd).fst = false) :=
  ⟨(read_clear_once { initButton with wasLongPressed := true, wasDoubleClicked := true }).1 rfl,
   (read_clear_once { initButton with wasLongPressed := true, wasDoubleClicked := true }).2 rfl⟩

/-! ### Claim C8 -/

/-- Claim C8: during the debounce window of a not-yet-accepted press
(`isPressed = false`, `lastState = true`, no long press latched),
`wasButtonClicked` returns `true` and overwrites `lastState` to `false`; the
next sample with the raw signal still high then observes an edge and resets
`lastDebounceTime` to its own time, restarting the debounce interval. -/
theorem spurious_click_restarts_debounce (s : ButtonState) (t : Nat)
    (hip : s.isPressed = false) (hls : s.lastState = true)
    (hwlp : s.wasLongPressed = false) :
    (wasButtonClicked s).fst = true ∧
    (wasButtonClicked s).snd.lastState = false ∧
    (processButton (wasButtonClicked s).snd true t).lastDebounceTime = t := by
  refine ⟨?_, ?_, ?_⟩
  · simp [wasButtonClicked, hip, hls, hwlp]
  · simp [wasButtonClicked, hip, hls, hwlp]
  · simp [wasButtonClicked, hip, hls, hwlp, processButton, usub_self]

/-- Claim C8 witness: the spurious click evaluated at the concrete state
reached by one raw-high sample from initialization, with the follow-up sample
at `t = 10`. -/
theorem spurious_click_restarts_debounce_witness :
    (wasButtonClicked { initButton with lastState := true }).fst = true ∧
    (wasButtonClicked { initButton with lastState := true }).snd.lastState = false ∧
    (processButton (wasButtonClicked { initButton with lastState := true }).snd
        true 10).lastDebounceTime = 10 :=
  spurious_click_restarts_debounce { initButton with lastState := true } 10
    rfl rfl rfl

/-! ### Claim C9 -/

/-- Claim C9: the first press ever accepted (zero-initialized
`lastPressTime`) at a time `now < DOUBLE_CLICK_TIME` sets `wasDoubleClicked`
even though no earlier press exists, because the window predicate is
evaluated against the zero timestamp. -/
theorem first_press_sets_double_flag (s : ButtonState) (now : Nat)
    (h0 : s.lastPressTime = 0) (hip : s.isPressed = false)
    (hls : s.lastState = true)
    (hdb : usub now s.lastDebounceTime > DEBOUNCE_DELAY)
    (hn : now < DOUBLE_CLICK_TIME) :
    (processButton s true now).wasDoubleClicked = true := by
  have hM : now < ULMOD := lt_trans hn (by decide)
  simp [processButton, hip, hls, hdb, h0, usub_zero, Nat.mod_eq_of_lt hM, hn]

/-- Claim C9 witness: the first press accepted at `now = 300 < 400` from the
zero-initialized state sets the double-click flag. -/
theorem first_press_sets_double_flag_witness :
    (processButton { initButton with lastState := true } true 300).wasDoubleClicked
      = true :=
  first_press_sets_double_flag { initButton with lastState := true } 300
    rfl rfl rfl (by decide) (by decide)

/-! ### Claim C10 -/

/-- Claim C10: each consuming read modifies at most its own flag field —
`wasButtonLongPressed` leaves every field except `wasLongPressed` unchanged,
`wasButtonDoubleClicked` every field except `wasDoubleClicked` — and
`isButtonPressed` and `getButtonPressDuration` leave the whole state
unchanged. -/
theorem consuming_reads_frame (s : ButtonState) (now : Nat) :
    ((wasButtonLongPressed s).snd.isPressed = s.isPressed ∧
     (wasButtonLongPressed s).snd.wasDoubleClicked = s.wasDoubleClicked ∧
     (wasButtonLongPressed s).snd.pressedTime = s.pressedTime ∧
     (wasButtonLongPressed s).snd.lastPressTime = s.lastPressTime ∧
     (wasButtonLongPressed s).snd.lastState = s.lastState ∧
     (wasButtonLongPressed s).snd.lastDebounceTime = s.lastDebounceTime) ∧
    ((wasButtonDoubleClicked s).snd.isPressed = s.isPressed ∧
     (wasButtonDoubleClicked s).snd.wasLongPressed = s.wasLongPressed ∧
     (wasButtonDoubleClicked s).snd.pressedTime = s.pressedTime ∧
     (wasButtonDoubleClicked s).snd.lastPressTime = s.lastPressTime ∧
     (wasButtonDoubleClicked s).snd.lastState = s.lastState ∧
     (wasButtonDoubleClicked s).snd.lastDebounceTime = s.lastDebounceTime) ∧
    (isButtonPressed s).snd = s ∧
    (getButtonPressDuration s now).snd = s := by
  obtain ⟨ip, wlp, wdc, pt, lpt, ls, ldt⟩ := s
  cases ip <;> cases wlp <;> cases wdc <;>
    simp [wasButtonLongPressed, wasButtonDoubleClicked, isButtonPressed,
      getButtonPressDuration]

end Buttons
